import Mathlib

/-!
# miniecu communication thread (`fw/th_comm.c`)

A shallow embedding of the communication thread of the miniecu firmware:
the loop `thd_comm`, the heartbeat producer `send_status`, the
`TIME_REFERENCE` handler `recv_time_reference` and the four stub handlers.

The thread talks to three collaborators whose code is not part of the file:
the ChibiOS kernel (`chThdShouldTerminate`, `chEvtGetAndClearEvents`,
`chTimeNow`), the framed transport (`pbstx_receive`, `pbstx_send`) and the
nanopb codec (`pb_encode`, `pb_decode`).  Their results are inputs of the
model (`TurnInput`, `Env`); the calls the thread makes on them are recorded
in the state (`CommState`).
-/

namespace MiniEcu

/-! ## Data model -/

/-- Struct `miniecu_Status` of `miniecu.pb.h`: the two members `th_comm.c`
writes, and the bytes of all members it does not name. -/
structure miniecu_Status where
  engine_id : List Nat
  timestamp_ms : Nat
  other : List Nat
deriving DecidableEq, Repr

/-- Struct `miniecu_TimeReference` of `miniecu.pb.h`: the members
`th_comm.c` writes, and the bytes of the request-side members it does not
name. -/
structure miniecu_TimeReference where
  engine_id : List Nat
  has_system_time : Bool
  system_time : Nat
  has_timediff : Bool
  timediff : Int
  request : List Nat
deriving DecidableEq, Repr

/-- One call of `pbstx_send(msgid, msg_buf, len)`: the identifier, the length
argument, and the first `len` bytes of the buffer at the time of the call. -/
structure Frame where
  msgid : Nat
  len : Nat
  payload : List Nat
deriving DecidableEq, Repr

/-- The handlers of `th_comm.c`, with the argument each is entered with. -/
inductive Handler where
  | send_status
  | recv_time_reference (msg_len : Nat)
  | recv_command (msg_len : Nat)
  | recv_param_request (msg_len : Nat)
  | recv_param_set (msg_len : Nat)
  | recv_log_request (msg_len : Nat)
deriving DecidableEq, Repr

/-- The alert conditions the comments of `th_comm.c` name. -/
inductive Condition where
  | encode_failure
  | decode_failure
  | unhandled
deriving DecidableEq, Repr

/-- What `th_comm.c` takes from headers and libraries outside the file:
the `miniecu_MessageId_*` enumerators, `CH_FREQUENCY`, the width of
`systime_t`, the size of the part of `miniecu_Status` that `memset` clears
besides `engine_id` and `timestamp_ms`, and the nanopb codec for the two
message descriptors.  An encoder yields the result of `pb_encode` and the
bytes its output stream wrote, in order; a decoder reads the bytes of its
input stream. -/
structure Env where
  STATUS : Nat
  TIME_REFERENCE : Nat
  COMMAND : Nat
  PARAM_REQUEST : Nat
  PARAM_SET : Nat
  LOG_REQUEST : Nat
  CH_FREQUENCY : Nat
  systime_bits : Nat
  status_other_size : Nat
  encode_Status : miniecu_Status → Bool × List Nat
  encode_TimeReference : miniecu_TimeReference → Bool × List Nat
  decode_TimeReference : List Nat → Option miniecu_TimeReference

/-- What the environment hands to one turn of the loop: the value of
`chThdShouldTerminate()` at the top of the turn, the mask returned by
`chEvtGetAndClearEvents(ALL_EVENTS)`, the two readings of `chTimeNow()`,
and the outcome of `pbstx_receive` (return value, identifier, the bytes it
stored from the start of `msg_buf`, and the length it reported). -/
structure TurnInput where
  should_terminate : Bool
  mask : Nat
  now_status : Nat
  ret : Int
  msgid : Nat
  stored : List Nat
  in_msg_len : Nat
  now_time_ref : Nat

/-- State of the thread: the static `msg_buf`, and the record of what the
thread did: frames handed to `pbstx_send`, handlers entered, and alert
conditions raised, each oldest first. -/
structure CommState where
  msg_buf : List Nat
  sent : List Frame
  calls : List Handler
  alerts : List Condition
deriving DecidableEq, Repr

/-! ## Constants and primitives -/

/-- `sizeof(msg_buf)`. -/
def MSG_BUF_SIZE : Nat := 256

/-- ChibiOS `RDY_OK`. -/
def RDY_OK : Int := 0

/-- ChibiOS `EVENT_MASK(eid)`, that is `1 << eid`. -/
def EVENT_MASK (eid : Nat) : Nat := 1 <<< eid

/-- The string literal `"eng2"`, as bytes. -/
def eng2 : List Nat := [101, 110, 103, 50]

/-- `memcpy(dst, src, n)` on byte arrays: the first `n` bytes of `dst` are
replaced, the others stay. -/
def memcpy (dst src : List Nat) (n : Nat) : List Nat :=
  src.take n ++ dst.drop n

/-- Writing `bs` through an output stream opened on `msg_buf` with
`pb_ostream_from_buffer(msg_buf, sizeof(msg_buf))`: the bytes land at the
start of the buffer, and nothing is stored past its end. -/
def writeBuf (buf bs : List Nat) : List Nat :=
  (bs ++ buf.drop bs.length).take MSG_BUF_SIZE

/-- The expression `chTimeNow() * 1000 / CH_FREQUENCY` in the unsigned
arithmetic of `systime_t`: the product wraps at `2 ^ systime_bits` before
the division. -/
def systime_to_msec (env : Env) (now : Nat) : Nat :=
  (now * 1000 % 2 ^ env.systime_bits) / env.CH_FREQUENCY

/-- The call `pbstx_send(msgid, msg_buf, len)`. -/
def pbstx_send (msgid len : Nat) (s : CommState) : CommState :=
  { s with sent := s.sent ++ [⟨msgid, len, s.msg_buf.take len⟩] }

/-- Entering a handler. -/
def enter (h : Handler) (s : CommState) : CommState :=
  { s with calls := s.calls ++ [h] }

/-! ## The handlers -/

/-- The `miniecu_Status` that `send_status` builds (lines 112-114). -/
def status_message (env : Env) (now : Nat) : miniecu_Status :=
  let status : miniecu_Status :=
    { engine_id := List.replicate 4 0, timestamp_ms := 0,
      other := List.replicate env.status_other_size 0 }
  let status := { status with engine_id := memcpy status.engine_id eng2 4 }
  { status with timestamp_ms := systime_to_msec env now }

/-- Function `send_status`. -/
def send_status (env : Env) (now : Nat) (s : CommState) : CommState :=
  let s := enter Handler.send_status s
  let status := status_message env now
  let r := env.encode_Status status
  let s := { s with msg_buf := writeBuf s.msg_buf r.2 }
  if !r.1 then
    /- ALERT -/
    s
  else
    pbstx_send env.STATUS r.2.length s

/-- The updates `recv_time_reference` makes to the decoded message
(lines 141-145). -/
def time_reference_reply (env : Env) (now : Nat)
    (time_ref : miniecu_TimeReference) : miniecu_TimeReference :=
  let time_ref := { time_ref with engine_id := memcpy time_ref.engine_id eng2 4 }
  let time_ref := { time_ref with has_system_time := true }
  let time_ref := { time_ref with system_time := systime_to_msec env now }
  let time_ref := { time_ref with has_timediff := true }
  { time_ref with timediff := 9000 }

/-- Function `recv_time_reference`. -/
def recv_time_reference (env : Env) (now : Nat) (msg_len : Nat)
    (s : CommState) : CommState :=
  let s := enter (Handler.recv_time_reference msg_len) s
  match env.decode_TimeReference (s.msg_buf.take msg_len) with
  | none =>
    /- ALERT! -/
    s
  | some time_ref =>
    let time_ref := time_reference_reply env now time_ref
    let r := env.encode_TimeReference time_ref
    let s := { s with msg_buf := writeBuf s.msg_buf r.2 }
    if !r.1 then
      /- ALERT! -/
      s
    else
      pbstx_send env.TIME_REFERENCE r.2.length s

/-- Function `recv_command` (empty body). -/
def recv_command (msg_len : Nat) (s : CommState) : CommState :=
  enter (Handler.recv_command msg_len) s

/-- Function `recv_param_request` (empty body). -/
def recv_param_request (msg_len : Nat) (s : CommState) : CommState :=
  enter (Handler.recv_param_request msg_len) s

/-- Function `recv_param_set` (empty body). -/
def recv_param_set (msg_len : Nat) (s : CommState) : CommState :=
  enter (Handler.recv_param_set msg_len) s

/-- Function `recv_log_request` (empty body). -/
def recv_log_request (msg_len : Nat) (s : CommState) : CommState :=
  enter (Handler.recv_log_request msg_len) s

/-! ## The loop -/

/-- The `switch (msgid)` of `thd_comm` (lines 80-100); the cases are tried
in the order they are written. -/
def dispatch (env : Env) (inp : TurnInput) (s : CommState) : CommState :=
  if inp.msgid = env.TIME_REFERENCE then
    recv_time_reference env inp.now_time_ref inp.in_msg_len s
  else if inp.msgid = env.COMMAND then
    recv_command inp.in_msg_len s
  else if inp.msgid = env.PARAM_REQUEST then
    recv_param_request inp.in_msg_len s
  else if inp.msgid = env.PARAM_SET then
    recv_param_set inp.in_msg_len s
  else if inp.msgid = env.LOG_REQUEST then
    recv_log_request inp.in_msg_len s
  else
    /- ALARM? -/
    s

/-- Lines 72-76 of `thd_comm`: `send_status` runs when bit 0 of the mask
returned by `chEvtGetAndClearEvents(ALL_EVENTS)` is set. -/
def heartbeat (env : Env) (inp : TurnInput) (s : CommState) : CommState :=
  if inp.mask &&& EVENT_MASK 0 ≠ 0 then send_status env inp.now_status s else s

/-- The effect of `pbstx_receive(&msgid, msg_buf, &in_msg_len)` (line 78) on
the thread: the transport stores bytes from the start of `msg_buf`. -/
def pbstx_receive (inp : TurnInput) (s : CommState) : CommState :=
  { s with msg_buf := writeBuf s.msg_buf inp.stored }

/-- The body of the `while` loop of `thd_comm` (lines 72-101). -/
def thd_comm_turn (env : Env) (inp : TurnInput) (s : CommState) : CommState :=
  let s := heartbeat env inp s
  let s := pbstx_receive inp s
  if inp.ret = RDY_OK then dispatch env inp s else s

/-- The `while (!chThdShouldTerminate())` loop of `thd_comm` and its
`return 0`, run on the turn inputs the environment provides.  The result is
`some 0` when the thread returned, and `none` when the inputs ran out with
the thread still in the loop. -/
def thd_comm_loop (env : Env) : List TurnInput → CommState → Option Int × CommState
  | [], s => (none, s)
  | inp :: rest, s =>
    if inp.should_terminate then (some 0, s)
    else thd_comm_loop env rest (thd_comm_turn env inp s)

/-- The case labels of the `switch` in `thd_comm`. -/
def dispatched (env : Env) (msgid : Nat) : Bool :=
  msgid == env.TIME_REFERENCE || msgid == env.COMMAND || msgid == env.PARAM_REQUEST
    || msgid == env.PARAM_SET || msgid == env.LOG_REQUEST

/-- The case labels of one `switch` are pairwise different (a C compiler
rejects a duplicate label). -/
def labels_distinct (env : Env) : Prop :=
  [env.TIME_REFERENCE, env.COMMAND, env.PARAM_REQUEST, env.PARAM_SET, env.LOG_REQUEST].Nodup

/-! ## A concrete environment

A small codec and fixed header constants, used to run the model on concrete
inputs. -/

/-- A length-tagged encoding of `miniecu_Status`. -/
def demo_encode_Status (m : miniecu_Status) : Bool × List Nat :=
  (true, m.engine_id.length :: (m.engine_id ++ m.timestamp_ms :: m.other))

/-- The decoder for `demo_encode_Status`. -/
def demo_decode_Status : List Nat → Option miniecu_Status
  | [] => none
  | n :: bs =>
    match bs.drop n with
    | [] => none
    | t :: other => some { engine_id := bs.take n, timestamp_ms := t, other := other }

/-- An encoding of `miniecu_TimeReference`: identifier, then each optional
member as a presence byte and a value. -/
def demo_encode_TimeReference (m : miniecu_TimeReference) : Bool × List Nat :=
  (true, m.engine_id ++ [m.has_system_time.toNat, m.system_time,
    m.has_timediff.toNat, m.timediff.toNat] ++ m.request)

/-- A decoder of requests: four identifier bytes and no optional member;
any other length is malformed. -/
def demo_decode_TimeReference (bs : List Nat) : Option miniecu_TimeReference :=
  if bs.length = 4 then
    some { engine_id := bs, has_system_time := false, system_time := 0,
           has_timediff := false, timediff := 0, request := [] }
  else none

/-- A 32-bit `systime_t` at 1 kHz, with the demo codec. -/
def demoEnv : Env :=
  { STATUS := 0, TIME_REFERENCE := 1, COMMAND := 2, PARAM_REQUEST := 3,
    PARAM_SET := 4, LOG_REQUEST := 5, CH_FREQUENCY := 1000, systime_bits := 32,
    status_other_size := 2,
    encode_Status := demo_encode_Status,
    encode_TimeReference := demo_encode_TimeReference,
    decode_TimeReference := demo_decode_TimeReference }

/-- The demo environment with encoders that always fail. -/
def failEnv : Env :=
  { demoEnv with
    encode_Status := fun _ => (false, []),
    encode_TimeReference := fun _ => (false, []) }

/-- A thread state with a zeroed buffer and nothing done yet. -/
def s0 : CommState :=
  { msg_buf := List.replicate MSG_BUF_SIZE 0, sent := [], calls := [], alerts := [] }

/-- A turn input: timer bit set, and a `TIME_REFERENCE` request of four
bytes received. -/
def inpTimerAndTimeRef : TurnInput :=
  { should_terminate := false, mask := 1, now_status := 5000, ret := 0, msgid := 1,
    stored := [112, 101, 101, 114], in_msg_len := 4, now_time_ref := 5001 }

/-- A turn input: timer bit set, and `pbstx_receive` timing out. -/
def inpTimerOnly : TurnInput :=
  { should_terminate := false, mask := 1, now_status := 5000, ret := -1, msgid := 0,
    stored := [], in_msg_len := 0, now_time_ref := 5000 }

/-- A turn input: no timer, and a frame with identifier 200 received. -/
def inpUnknown : TurnInput :=
  { should_terminate := false, mask := 0, now_status := 0, ret := 0, msgid := 200,
    stored := [1, 2, 3], in_msg_len := 3, now_time_ref := 0 }

/-- A turn input: no timer, and a `COMMAND` frame of length 0 received. -/
def inpCommand : TurnInput :=
  { should_terminate := false, mask := 0, now_status := 0, ret := 0, msgid := 2,
    stored := [], in_msg_len := 0, now_time_ref := 0 }

/-- A turn input: no timer, and a `TIME_REFERENCE` frame of three bytes,
which the demo decoder rejects. -/
def inpMalformed : TurnInput :=
  { should_terminate := false, mask := 0, now_status := 0, ret := 0, msgid := 1,
    stored := [9, 9, 9], in_msg_len := 3, now_time_ref := 0 }


/-! ## Lemmas on the buffer -/

theorem take_writeBuf_self (buf bs : List Nat) :
    (writeBuf buf bs).take bs.length = bs.take MSG_BUF_SIZE := by
  unfold writeBuf
  rw [List.take_take, List.take_append_of_le_length (min_le_left _ _)]
  rcases Nat.le_total bs.length MSG_BUF_SIZE with h | h
  · rw [min_eq_left h, List.take_of_length_le (le_refl _), List.take_of_length_le h]
  · rw [min_eq_right h]

theorem take_writeBuf_of_le (buf bs : List Nat) (n : Nat) (h : n ≤ bs.length) :
    (writeBuf buf bs).take n = bs.take (min n MSG_BUF_SIZE) := by
  unfold writeBuf
  rw [List.take_take, List.take_append_of_le_length (le_trans (min_le_left _ _) h)]

theorem send_status_sent (env : Env) (now : Nat) (s : CommState) :
    (send_status env now s).sent =
      if (env.encode_Status (status_message env now)).1 then
        s.sent ++ [⟨env.STATUS, (env.encode_Status (status_message env now)).2.length,
          (env.encode_Status (status_message env now)).2.take MSG_BUF_SIZE⟩]
      else s.sent := by
  unfold send_status
  cases h : (env.encode_Status (status_message env now)).1 <;>
    simp [h, pbstx_send, enter, take_writeBuf_self]

theorem send_status_calls (env : Env) (now : Nat) (s : CommState) :
    (send_status env now s).calls = s.calls ++ [Handler.send_status] := by
  unfold send_status
  cases h : (env.encode_Status (status_message env now)).1 <;>
    simp [h, pbstx_send, enter]

theorem send_status_alerts (env : Env) (now : Nat) (s : CommState) :
    (send_status env now s).alerts = s.alerts := by
  unfold send_status
  cases h : (env.encode_Status (status_message env now)).1 <;>
    simp [h, pbstx_send, enter]

theorem recv_time_reference_of_decode (env : Env) (now msg_len : Nat) (s : CommState)
    (m : miniecu_TimeReference)
    (hdec : env.decode_TimeReference (s.msg_buf.take msg_len) = some m) :
    (recv_time_reference env now msg_len s).sent =
        (if (env.encode_TimeReference (time_reference_reply env now m)).1 then
          s.sent ++ [⟨env.TIME_REFERENCE,
            (env.encode_TimeReference (time_reference_reply env now m)).2.length,
            (env.encode_TimeReference (time_reference_reply env now m)).2.take MSG_BUF_SIZE⟩]
        else s.sent)
      ∧ (recv_time_reference env now msg_len s).calls
          = s.calls ++ [Handler.recv_time_reference msg_len]
      ∧ (recv_time_reference env now msg_len s).alerts = s.alerts := by
  unfold recv_time_reference
  simp only [enter, hdec]
  cases h : (env.encode_TimeReference (time_reference_reply env now m)).1 <;>
    simp [h, pbstx_send, take_writeBuf_self]

theorem recv_time_reference_of_fail (env : Env) (now msg_len : Nat) (s : CommState)
    (hdec : env.decode_TimeReference (s.msg_buf.take msg_len) = none) :
    recv_time_reference env now msg_len s
      = enter (Handler.recv_time_reference msg_len) s := by
  unfold recv_time_reference
  simp only [enter, hdec]

theorem dispatch_time_reference (env : Env) (inp : TurnInput) (s : CommState)
    (hid : inp.msgid = env.TIME_REFERENCE) :
    dispatch env inp s = recv_time_reference env inp.now_time_ref inp.in_msg_len s := by
  unfold dispatch
  rw [if_pos hid]

theorem dispatch_default (env : Env) (inp : TurnInput) (s : CommState)
    (hid : dispatched env inp.msgid = false) : dispatch env inp s = s := by
  unfold dispatched at hid
  simp only [Bool.or_eq_false_iff, beq_eq_false_iff_ne, ne_eq] at hid
  obtain ⟨⟨⟨⟨h1, h2⟩, h3⟩, h4⟩, h5⟩ := hid
  unfold dispatch
  rw [if_neg h1, if_neg h2, if_neg h3, if_neg h4, if_neg h5]

theorem heartbeat_of_timer (env : Env) (inp : TurnInput) (s : CommState)
    (htimer : inp.mask &&& EVENT_MASK 0 ≠ 0) :
    heartbeat env inp s = send_status env inp.now_status s := by
  unfold heartbeat
  rw [if_pos htimer]

/-! ## The claims -/

/-- Claim C1. In a turn where bit 0 of the event mask is set, `pbstx_receive`
returns `RDY_OK` with a `TIME_REFERENCE` frame that decodes, and both encodes
succeed, the frames handed to `pbstx_send` in the turn are the `STATUS` frame
followed by the `TIME_REFERENCE` frame, and `send_status` is entered before
`recv_time_reference`. -/
theorem turn_status_before_reply (env : Env) (inp : TurnInput) (s : CommState)
    (m : miniecu_TimeReference)
    (htimer : inp.mask &&& EVENT_MASK 0 ≠ 0)
    (hret : inp.ret = RDY_OK)
    (hid : inp.msgid = env.TIME_REFERENCE)
    (hstatus : (env.encode_Status (status_message env inp.now_status)).1 = true)
    (hdec : env.decode_TimeReference
      ((pbstx_receive inp (heartbeat env inp s)).msg_buf.take inp.in_msg_len) = some m)
    (hreply : (env.encode_TimeReference
      (time_reference_reply env inp.now_time_ref m)).1 = true) :
    (thd_comm_turn env inp s).sent = s.sent ++
        [⟨env.STATUS, (env.encode_Status (status_message env inp.now_status)).2.length,
            (env.encode_Status (status_message env inp.now_status)).2.take MSG_BUF_SIZE⟩,
         ⟨env.TIME_REFERENCE,
            (env.encode_TimeReference (time_reference_reply env inp.now_time_ref m)).2.length,
            (env.encode_TimeReference
              (time_reference_reply env inp.now_time_ref m)).2.take MSG_BUF_SIZE⟩]
      ∧ (thd_comm_turn env inp s).calls = s.calls ++
        [Handler.send_status, Handler.recv_time_reference inp.in_msg_len] := by
  have h := recv_time_reference_of_decode env inp.now_time_ref inp.in_msg_len _ m hdec
  unfold thd_comm_turn
  simp only [if_pos hret, dispatch_time_reference env inp _ hid]
  rw [h.1, h.2.1, if_pos hreply]
  simp only [pbstx_receive, heartbeat_of_timer env inp s htimer, send_status_sent,
    send_status_calls, if_pos hstatus]
  simp

/-- Witness for C1: the demo codec, timer bit set and a four-byte
`TIME_REFERENCE` request. -/
theorem turn_status_before_reply_witness :
    (thd_comm_turn demoEnv inpTimerAndTimeRef s0).sent = s0.sent ++
        [⟨0, 8, [4, 101, 110, 103, 50, 5000, 0, 0]⟩,
         ⟨1, 8, [101, 110, 103, 50, 1, 5001, 1, 9000]⟩]
      ∧ (thd_comm_turn demoEnv inpTimerAndTimeRef s0).calls = s0.calls ++
        [Handler.send_status, Handler.recv_time_reference 4] :=
  turn_status_before_reply demoEnv inpTimerAndTimeRef s0
    { engine_id := [112, 101, 101, 114], has_system_time := false, system_time := 0,
      has_timediff := false, timediff := 0, request := [] }
    (by decide) (by decide) (by decide) (by decide) (by decide) (by decide)

/-- Claim C2. In a turn where bit 0 of the event mask is set and
`pbstx_receive` does not return `RDY_OK`: when `pb_encode` of the Status
message succeeds exactly one frame is sent and it is tagged `STATUS`; when it
fails no frame is sent. -/
theorem turn_timer_no_frame (env : Env) (inp : TurnInput) (s : CommState)
    (htimer : inp.mask &&& EVENT_MASK 0 ≠ 0)
    (hret : inp.ret ≠ RDY_OK) :
    (thd_comm_turn env inp s).sent =
      if (env.encode_Status (status_message env inp.now_status)).1 then
        s.sent ++ [⟨env.STATUS,
          (env.encode_Status (status_message env inp.now_status)).2.length,
          (env.encode_Status (status_message env inp.now_status)).2.take MSG_BUF_SIZE⟩]
      else s.sent := by
  unfold thd_comm_turn
  simp only [if_neg hret, pbstx_receive, heartbeat_of_timer env inp s htimer,
    send_status_sent]

/-- Witness for C2: the timer fires and the transport times out. -/
theorem turn_timer_no_frame_witness :
    (thd_comm_turn demoEnv inpTimerOnly s0).sent =
      if (demoEnv.encode_Status (status_message demoEnv inpTimerOnly.now_status)).1 then
        s0.sent ++ [⟨demoEnv.STATUS,
          (demoEnv.encode_Status (status_message demoEnv inpTimerOnly.now_status)).2.length,
          (demoEnv.encode_Status
            (status_message demoEnv inpTimerOnly.now_status)).2.take MSG_BUF_SIZE⟩]
      else s0.sent :=
  turn_timer_no_frame demoEnv inpTimerOnly s0 (by decide) (by decide)

/-- Claim C3. When `pb_decode` accepts the request, its `engine_id` member is
the four-byte array, and the re-encode succeeds, `recv_time_reference` sends
exactly one frame, tagged `TIME_REFERENCE` and carrying the encoding of a
message with `has_system_time` and `has_timediff` set and `engine_id` equal
to `"eng2"`, whatever the decoded flags and members were. -/
theorem recv_time_reference_reply (env : Env) (now msg_len : Nat) (s : CommState)
    (m : miniecu_TimeReference)
    (hdec : env.decode_TimeReference (s.msg_buf.take msg_len) = some m)
    (hsize : m.engine_id.length = 4)
    (henc : (env.encode_TimeReference (time_reference_reply env now m)).1 = true) :
    (recv_time_reference env now msg_len s).sent = s.sent ++
        [⟨env.TIME_REFERENCE,
          (env.encode_TimeReference (time_reference_reply env now m)).2.length,
          (env.encode_TimeReference (time_reference_reply env now m)).2.take MSG_BUF_SIZE⟩]
      ∧ (time_reference_reply env now m).has_system_time = true
      ∧ (time_reference_reply env now m).has_timediff = true
      ∧ (time_reference_reply env now m).engine_id = eng2 := by
  have h := recv_time_reference_of_decode env now msg_len s m hdec
  rw [h.1, if_pos henc]
  refine ⟨rfl, rfl, rfl, ?_⟩
  simp [time_reference_reply, memcpy, eng2, List.drop_of_length_le (le_of_eq hsize)]

/-- Witness for C3: a request with no optional member set. -/
theorem recv_time_reference_reply_witness :
    (recv_time_reference demoEnv 5001 4 (pbstx_receive inpTimerAndTimeRef s0)).sent =
        (pbstx_receive inpTimerAndTimeRef s0).sent ++
        [⟨1, 8, [101, 110, 103, 50, 1, 5001, 1, 9000]⟩] :=
  (recv_time_reference_reply demoEnv 5001 4 (pbstx_receive inpTimerAndTimeRef s0)
    { engine_id := [112, 101, 101, 114], has_system_time := false, system_time := 0,
      has_timediff := false, timediff := 0, request := [] }
    (by decide) (by decide) (by decide)).1

/-- Claim C4 fails on the code: on a three-byte payload that the decoder
rejects, `recv_time_reference` returns with no alert condition raised, where
the claim, and the comment `ALERT!` in that branch of the code, ask for one
decode-failure condition. -/
theorem recv_time_reference_decode_failure_no_alert :
    demoEnv.decode_TimeReference ((pbstx_receive inpMalformed s0).msg_buf.take 3) = none
      ∧ (recv_time_reference demoEnv 0 3 (pbstx_receive inpMalformed s0)).alerts = []
      ∧ (recv_time_reference demoEnv 0 3 (pbstx_receive inpMalformed s0)).alerts.length
          ≠ (pbstx_receive inpMalformed s0).alerts.length + 1 := by
  decide

/-- The part of claim C4 that the code keeps: when `pb_decode` of the
TimeReference message fails, `recv_time_reference` returns having sent no
frame and left `msg_buf` as it was. -/
theorem recv_time_reference_decode_failure (env : Env) (now msg_len : Nat)
    (s : CommState)
    (hdec : env.decode_TimeReference (s.msg_buf.take msg_len) = none) :
    (recv_time_reference env now msg_len s).sent = s.sent
      ∧ (recv_time_reference env now msg_len s).msg_buf = s.msg_buf
      ∧ (recv_time_reference env now msg_len s).calls
          = s.calls ++ [Handler.recv_time_reference msg_len] := by
  rw [recv_time_reference_of_fail env now msg_len s hdec]
  exact ⟨rfl, rfl, rfl⟩

/-- Claim C5 fails on the code: a frame with identifier 200, which is no case
label, goes through the turn with no condition raised, where the claim, and
the comment `ALARM?` in the `default` case of the code, ask for one
unhandled-condition signal. -/
theorem turn_unknown_id_no_signal :
    inpUnknown.ret = RDY_OK
      ∧ dispatched demoEnv inpUnknown.msgid = false
      ∧ inpUnknown.msgid ≠ demoEnv.STATUS
      ∧ (thd_comm_turn demoEnv inpUnknown s0).alerts = []
      ∧ (thd_comm_turn demoEnv inpUnknown s0).alerts.length ≠ s0.alerts.length + 1 := by
  decide

/-- The part of claim C5 that the code keeps: for every received frame whose
identifier is none of the case labels of the `switch`, the dispatch enters no
handler and sends no frame; the turn ends with the state the receive left,
and the loop goes on to its next turn. -/
theorem turn_unknown_id (env : Env) (inp : TurnInput) (s : CommState)
    (rest : List TurnInput)
    (hret : inp.ret = RDY_OK)
    (hid : dispatched env inp.msgid = false)
    (hrun : inp.should_terminate = false) :
    dispatch env inp (pbstx_receive inp (heartbeat env inp s))
        = pbstx_receive inp (heartbeat env inp s)
      ∧ thd_comm_turn env inp s = pbstx_receive inp (heartbeat env inp s)
      ∧ (thd_comm_turn env inp s).sent = (heartbeat env inp s).sent
      ∧ (thd_comm_turn env inp s).calls = (heartbeat env inp s).calls
      ∧ thd_comm_loop env (inp :: rest) s
          = thd_comm_loop env rest (thd_comm_turn env inp s) := by
  have hd := dispatch_default env inp (pbstx_receive inp (heartbeat env inp s)) hid
  have ht : thd_comm_turn env inp s = pbstx_receive inp (heartbeat env inp s) := by
    unfold thd_comm_turn
    simp only [if_pos hret, hd]
  refine ⟨hd, ht, ?_, ?_, ?_⟩
  · rw [ht]; rfl
  · rw [ht]; rfl
  · simp [thd_comm_loop, hrun]

/-- Claim C6. For every received frame tagged `COMMAND`, `PARAM_REQUEST`,
`PARAM_SET` or `LOG_REQUEST`, with any payload length and bytes, the dispatch
enters the stub handler of that identifier and nothing else: no frame is
sent, no alert is raised, and `msg_buf` stays as the transport filled it. -/
theorem turn_stub_handler (env : Env) (inp : TurnInput) (s : CommState)
    (hlabels : labels_distinct env)
    (hret : inp.ret = RDY_OK)
    (hid : inp.msgid = env.COMMAND ∨ inp.msgid = env.PARAM_REQUEST
      ∨ inp.msgid = env.PARAM_SET ∨ inp.msgid = env.LOG_REQUEST) :
    ∃ h, (h = Handler.recv_command inp.in_msg_len ∧ inp.msgid = env.COMMAND
          ∨ h = Handler.recv_param_request inp.in_msg_len ∧ inp.msgid = env.PARAM_REQUEST
          ∨ h = Handler.recv_param_set inp.in_msg_len ∧ inp.msgid = env.PARAM_SET
          ∨ h = Handler.recv_log_request inp.in_msg_len ∧ inp.msgid = env.LOG_REQUEST)
      ∧ (thd_comm_turn env inp s).calls = (heartbeat env inp s).calls ++ [h]
      ∧ (thd_comm_turn env inp s).sent = (heartbeat env inp s).sent
      ∧ (thd_comm_turn env inp s).alerts = (heartbeat env inp s).alerts
      ∧ (thd_comm_turn env inp s).msg_buf
          = (pbstx_receive inp (heartbeat env inp s)).msg_buf := by
  unfold labels_distinct at hlabels
  simp only [List.nodup_cons, List.mem_cons, List.mem_singleton, not_or, List.not_mem_nil,
    not_false_eq_true, List.nodup_nil, and_true] at hlabels
  obtain ⟨⟨h12, h13, h14, h15⟩, ⟨h23, h24, h25⟩, ⟨h34, h35⟩, h45⟩ := hlabels
  unfold thd_comm_turn
  simp only [if_pos hret]
  unfold dispatch
  rcases hid with h | h | h | h
  · refine ⟨Handler.recv_command inp.in_msg_len, Or.inl ⟨rfl, h⟩, ?_⟩
    rw [if_neg (by rw [h]; exact Ne.symm h12), if_pos h]
    exact ⟨rfl, rfl, rfl, rfl⟩
  · refine ⟨Handler.recv_param_request inp.in_msg_len, Or.inr (Or.inl ⟨rfl, h⟩), ?_⟩
    rw [if_neg (by rw [h]; exact Ne.symm h13), if_neg (by rw [h]; exact Ne.symm h23),
      if_pos h]
    exact ⟨rfl, rfl, rfl, rfl⟩
  · refine ⟨Handler.recv_param_set inp.in_msg_len, Or.inr (Or.inr (Or.inl ⟨rfl, h⟩)), ?_⟩
    rw [if_neg (by rw [h]; exact Ne.symm h14), if_neg (by rw [h]; exact Ne.symm h24),
      if_neg (by rw [h]; exact Ne.symm h34), if_pos h]
    exact ⟨rfl, rfl, rfl, rfl⟩
  · refine ⟨Handler.recv_log_request inp.in_msg_len, Or.inr (Or.inr (Or.inr ⟨rfl, h⟩)), ?_⟩
    rw [if_neg (by rw [h]; exact Ne.symm h15), if_neg (by rw [h]; exact Ne.symm h25),
      if_neg (by rw [h]; exact Ne.symm h35), if_neg (by rw [h]; exact Ne.symm h45),
      if_pos h]
    exact ⟨rfl, rfl, rfl, rfl⟩

/-- Witness for C6: a `COMMAND` frame of length 0. -/
theorem turn_stub_handler_witness :
    ∃ h, (h = Handler.recv_command inpCommand.in_msg_len
            ∧ inpCommand.msgid = demoEnv.COMMAND
          ∨ h = Handler.recv_param_request inpCommand.in_msg_len
            ∧ inpCommand.msgid = demoEnv.PARAM_REQUEST
          ∨ h = Handler.recv_param_set inpCommand.in_msg_len
            ∧ inpCommand.msgid = demoEnv.PARAM_SET
          ∨ h = Handler.recv_log_request inpCommand.in_msg_len
            ∧ inpCommand.msgid = demoEnv.LOG_REQUEST)
      ∧ (thd_comm_turn demoEnv inpCommand s0).calls
          = (heartbeat demoEnv inpCommand s0).calls ++ [h]
      ∧ (thd_comm_turn demoEnv inpCommand s0).sent = (heartbeat demoEnv inpCommand s0).sent
      ∧ (thd_comm_turn demoEnv inpCommand s0).alerts
          = (heartbeat demoEnv inpCommand s0).alerts
      ∧ (thd_comm_turn demoEnv inpCommand s0).msg_buf
          = (pbstx_receive inpCommand (heartbeat demoEnv inpCommand s0)).msg_buf :=
  turn_stub_handler demoEnv inpCommand s0 (by unfold labels_distinct; decide) (by decide)
    (Or.inl (by decide))

theorem demo_decode_encode_Status (m : miniecu_Status) :
    demo_decode_Status (demo_encode_Status m).2 = some m := by
  simp [demo_encode_Status, demo_decode_Status]

/-- Claim C7. If the decoder of Status messages inverts the encoder on every
message whose encoding fits `msg_buf`, then for every reading of the clock
for which the encode succeeds and fits, the payload `send_status` hands to
`pbstx_send` decodes to the Status message with `engine_id` equal to `"eng2"`,
`timestamp_ms` equal to `chTimeNow() * 1000 / CH_FREQUENCY`, and every other
member zero. -/
theorem send_status_roundtrip (env : Env)
    (decode_Status : List Nat → Option miniecu_Status) (now : Nat) (s : CommState)
    (hinv : ∀ m, (env.encode_Status m).1 = true →
      (env.encode_Status m).2.length ≤ MSG_BUF_SIZE →
      decode_Status (env.encode_Status m).2 = some m)
    (hok : (env.encode_Status (status_message env now)).1 = true)
    (hfit : (env.encode_Status (status_message env now)).2.length ≤ MSG_BUF_SIZE) :
    ∃ f, (send_status env now s).sent = s.sent ++ [f]
      ∧ f.msgid = env.STATUS
      ∧ f.payload = (send_status env now s).msg_buf.take f.len
      ∧ decode_Status f.payload = some
          { engine_id := eng2,
            timestamp_ms := (now * 1000 % 2 ^ env.systime_bits) / env.CH_FREQUENCY,
            other := List.replicate env.status_other_size 0 } := by
  refine ⟨⟨env.STATUS, (env.encode_Status (status_message env now)).2.length,
    (env.encode_Status (status_message env now)).2.take MSG_BUF_SIZE⟩, ?_, rfl, ?_, ?_⟩
  · rw [send_status_sent, if_pos hok]
  · have hb : (send_status env now s).msg_buf
        = writeBuf s.msg_buf (env.encode_Status (status_message env now)).2 := by
      unfold send_status
      simp [hok, pbstx_send, enter]
    rw [hb]
    exact (take_writeBuf_self _ _).symm
  · show decode_Status ((env.encode_Status (status_message env now)).2.take MSG_BUF_SIZE) = _
    rw [List.take_of_length_le hfit, hinv _ hok hfit]
    rfl

/-- Witness for C7: the demo codec at tick 5000. -/
theorem send_status_roundtrip_witness :
    ∃ f, (send_status demoEnv 5000 s0).sent = s0.sent ++ [f]
      ∧ f.msgid = demoEnv.STATUS
      ∧ f.payload = (send_status demoEnv 5000 s0).msg_buf.take f.len
      ∧ demo_decode_Status f.payload = some
          { engine_id := eng2,
            timestamp_ms := (5000 * 1000 % 2 ^ demoEnv.systime_bits) / demoEnv.CH_FREQUENCY,
            other := List.replicate demoEnv.status_other_size 0 } :=
  send_status_roundtrip demoEnv demo_decode_Status 5000 s0
    (fun m _ _ => demo_decode_encode_Status m) (by decide) (by decide)

theorem systime_to_msec_mono_of_no_wrap (env : Env) (t1 t2 : Nat) (h : t1 ≤ t2)
    (hfit : t2 * 1000 < 2 ^ env.systime_bits) :
    systime_to_msec env t1 ≤ systime_to_msec env t2 := by
  unfold systime_to_msec
  have h1 : t1 * 1000 ≤ t2 * 1000 := Nat.mul_le_mul_right 1000 h
  rw [Nat.mod_eq_of_lt hfit, Nat.mod_eq_of_lt (lt_of_le_of_lt h1 hfit)]
  exact Nat.div_le_div_right h1

/-- Claim C8 fails on the code: with a 32-bit `systime_t` at 1000 Hz the ticks
4294967 and 4294968 are in order and in range, yet the product of the second
wraps, so `timestamp_ms` of `send_status` drops from 4294967 to 0, and so
does `system_time` of `recv_time_reference`. -/
theorem timestamp_wraps_early :
    (4294967 : Nat) ≤ 4294968
      ∧ 4294968 < 2 ^ demoEnv.systime_bits
      ∧ (status_message demoEnv 4294967).timestamp_ms = 4294967
      ∧ (status_message demoEnv 4294968).timestamp_ms = 0
      ∧ ¬ (status_message demoEnv 4294967).timestamp_ms
          ≤ (status_message demoEnv 4294968).timestamp_ms
      ∧ ¬ (time_reference_reply demoEnv 4294967
            ⟨[0, 0, 0, 0], false, 0, false, 0, []⟩).system_time
          ≤ (time_reference_reply demoEnv 4294968
            ⟨[0, 0, 0, 0], false, 0, false, 0, []⟩).system_time := by
  decide

theorem heartbeat_sent_congr (env : Env) (inp : TurnInput) (s1 s2 : CommState)
    (hs : s1.sent = s2.sent) :
    (heartbeat env inp s1).sent = (heartbeat env inp s2).sent := by
  unfold heartbeat
  split
  · rw [send_status_sent, send_status_sent, hs]
  · exact hs

theorem dispatch_sent_congr (env : Env) (inp : TurnInput) (s1 s2 : CommState)
    (hs : s1.sent = s2.sent)
    (hb : s1.msg_buf.take inp.in_msg_len = s2.msg_buf.take inp.in_msg_len) :
    (dispatch env inp s1).sent = (dispatch env inp s2).sent := by
  unfold dispatch
  split_ifs
  · cases hdec : env.decode_TimeReference (s1.msg_buf.take inp.in_msg_len) with
    | none =>
      rw [recv_time_reference_of_fail env _ _ s1 hdec,
        recv_time_reference_of_fail env _ _ s2 (hb ▸ hdec)]
      exact hs
    | some m =>
      rw [(recv_time_reference_of_decode env _ _ s1 m hdec).1,
        (recv_time_reference_of_decode env _ _ s2 m (hb ▸ hdec)).1, hs]
  · exact hs
  · exact hs
  · exact hs
  · exact hs
  · exact hs

theorem turn_sent_congr (env : Env) (inp : TurnInput) (s1 s2 : CommState)
    (hlen : inp.in_msg_len ≤ inp.stored.length) (hs : s1.sent = s2.sent) :
    (thd_comm_turn env inp s1).sent = (thd_comm_turn env inp s2).sent := by
  have hh := heartbeat_sent_congr env inp s1 s2 hs
  unfold thd_comm_turn
  simp only
  split
  · apply dispatch_sent_congr
    · exact hh
    · show (writeBuf _ inp.stored).take _ = (writeBuf _ inp.stored).take _
      rw [take_writeBuf_of_le _ _ _ hlen, take_writeBuf_of_le _ _ _ hlen]
  · exact hh

theorem loop_sent_congr (env : Env) (inps : List TurnInput) :
    ∀ s1 s2 : CommState, (∀ inp ∈ inps, inp.in_msg_len ≤ inp.stored.length) →
      s1.sent = s2.sent →
      (thd_comm_loop env inps s1).1 = (thd_comm_loop env inps s2).1
        ∧ (thd_comm_loop env inps s1).2.sent = (thd_comm_loop env inps s2).2.sent := by
  induction inps with
  | nil => intro s1 s2 _ hs; exact ⟨rfl, hs⟩
  | cons inp rest ih =>
    intro s1 s2 hlen hs
    unfold thd_comm_loop
    split
    · exact ⟨rfl, hs⟩
    · exact ih _ _ (fun i hi => hlen i (List.mem_cons_of_mem _ hi))
        (turn_sent_congr env inp s1 s2 (hlen inp (List.mem_cons_self _ _)) hs)

/-- Claim C9. The frames sent do not depend on what `msg_buf` held before:
for any two initial contents of the buffer and the same inputs otherwise,
with the transport having stored the bytes whose count it reports, one turn
sends the same frames, and so does every run of the loop; and when a frame
with an identifier that is no case label is dropped, replacing the bytes the
transport stored for it changes no frame sent in that turn or any later
one. -/
theorem sent_independent_of_buffer (env : Env) :
    (∀ (inp : TurnInput) (s : CommState) (b : List Nat),
        inp.in_msg_len ≤ inp.stored.length →
        (thd_comm_turn env inp { s with msg_buf := b }).sent
          = (thd_comm_turn env inp s).sent)
      ∧ (∀ (inps : List TurnInput) (s : CommState) (b : List Nat),
        (∀ inp ∈ inps, inp.in_msg_len ≤ inp.stored.length) →
        (thd_comm_loop env inps { s with msg_buf := b }).2.sent
          = (thd_comm_loop env inps s).2.sent)
      ∧ (∀ (inp : TurnInput) (rest : List TurnInput) (s : CommState) (bytes : List Nat),
        inp.ret = RDY_OK → dispatched env inp.msgid = false →
        (∀ i ∈ rest, i.in_msg_len ≤ i.stored.length) →
        (thd_comm_loop env ({ inp with stored := bytes } :: rest) s).2.sent
          = (thd_comm_loop env (inp :: rest) s).2.sent) := by
  refine ⟨?_, ?_, ?_⟩
  · intro inp s b hlen
    exact turn_sent_congr env inp { s with msg_buf := b } s hlen rfl
  · intro inps s b hlen
    exact (loop_sent_congr env inps { s with msg_buf := b } s hlen rfl).2
  · intro inp rest s bytes hret hid hlen
    unfold thd_comm_loop
    show (if inp.should_terminate = true then _ else _ : Option Int × CommState).2.sent
      = (if inp.should_terminate = true then _ else _ : Option Int × CommState).2.sent
    split
    · rfl
    · apply (loop_sent_congr env rest _ _ hlen _).2
      have h1 : thd_comm_turn env { inp with stored := bytes } s
          = pbstx_receive { inp with stored := bytes }
              (heartbeat env { inp with stored := bytes } s) := by
        unfold thd_comm_turn
        simp only [if_pos hret]
        exact dispatch_default env _ _ hid
      have h2 : thd_comm_turn env inp s = pbstx_receive inp (heartbeat env inp s) := by
        unfold thd_comm_turn
        simp only [if_pos hret]
        exact dispatch_default env _ _ hid
      rw [h1, h2]
      rfl

/-- Witness for C9: a turn with the timer and a `TIME_REFERENCE` request, run
from a buffer of 255s and from the zeroed buffer. -/
theorem sent_independent_of_buffer_witness :
    (thd_comm_turn demoEnv inpTimerAndTimeRef
        { s0 with msg_buf := List.replicate 256 255 }).sent
      = (thd_comm_turn demoEnv inpTimerAndTimeRef s0).sent :=
  (sent_independent_of_buffer demoEnv).1 inpTimerAndTimeRef s0 (List.replicate 256 255)
    (by decide)

/-- Claim C10. No outcome of a turn ends the loop: run on any inputs, in any
state and with any codec, `thd_comm` returns, with value 0, exactly when
`chThdShouldTerminate()` reports a stop request at the top of some turn, and
until then every turn is run, each from the state the turn before left. -/
theorem thd_comm_loop_exit (env : Env) (inps : List TurnInput) (s : CommState) :
    ((thd_comm_loop env inps s).1 = some 0 ↔ ∃ inp ∈ inps, inp.should_terminate = true)
      ∧ ((thd_comm_loop env inps s).1 = none ↔ ∀ inp ∈ inps, inp.should_terminate = false)
      ∧ (thd_comm_loop env inps s).2
          = (inps.takeWhile (fun inp => !inp.should_terminate)).foldl
              (fun st inp => thd_comm_turn env inp st) s := by
  induction inps generalizing s with
  | nil => simp [thd_comm_loop]
  | cons inp rest ih =>
    unfold thd_comm_loop
    cases h : inp.should_terminate with
    | true => simp [h, List.takeWhile]
    | false =>
      have := ih (thd_comm_turn env inp s)
      simp [h, List.takeWhile, this]

end MiniEcu
